import Mathlib

/-!
Verification development for the MCP authentication server (`server.py`).

The development shallowly embeds the parts of the program the properties
speak about:

* the access-token data model and `UserAuthMiddleware` (identity
  resolution and the per-request `user_id` write),
* the `/.well-known/openid-configuration` discovery endpoint,
* the `/health` endpoint,
* the `add_numbers` tool together with the `datetime.isoformat`
  timestamp it embeds in its result.

Stateful code (the FastMCP request-scoped context store) is embedded by
explicit state passing: the middleware hooks become functions from the
optional request context to the updated context paired with the
response produced by the rest of the pipeline (`call_next`).
-/

namespace McpAuth

/-- A validated bearer token as the middleware observes it.  The
`claims` field is `none` when the token object carries no claims
structure (the `hasattr(token, "claims")` check in `_get_user_id`);
otherwise it is the claim-name → claim-value mapping, from which only
string-valued claims such as `sub` are relevant here. -/
structure AccessToken where
  claims : Option (List (String × String))
deriving Repr, DecidableEq

/-- The request-scoped key→value store backing
`context.fastmcp_context.set_state`.  Values are `Option String`
because the middleware may store the absence marker (`None`) under
`user_id`. -/
def RequestContext : Type := List (String × Option String)

instance : DecidableEq RequestContext := by
  unfold RequestContext; infer_instance

/-- `ctx.get_state k` : look a key up in the request-scoped store.
`none` means the key was never written. -/
def get_state (ctx : RequestContext) (k : String) : Option (Option String) :=
  match ctx with
  | [] => none
  | (k', v) :: rest => if k' = k then some v else get_state rest k

/-- `ctx.set_state k v` : write a key in the request-scoped store,
replacing any previous binding for the key (Python dict assignment
semantics). -/
def set_state (ctx : RequestContext) (k : String) (v : Option String) :
    RequestContext :=
  match ctx with
  | [] => [(k, v)]
  | (k', v') :: rest =>
      if k' = k then (k, v) :: rest else (k', v') :: set_state rest k v

/-- `UserAuthMiddleware._get_user_id`: if no token is attached to the
request, or the token lacks a claims structure, return `None`;
otherwise return `token.claims.get("sub")` (itself possibly absent). -/
def getUserId (token : Option AccessToken) : Option String :=
  match token with
  | none => none
  | some t =>
      match t.claims with
      | none => none
      | some cs => cs.lookup "sub"

/-- `UserAuthMiddleware.on_call_tool`: resolve the user id, store it
under `"user_id"` when the call's `fastmcp_context` is present, then
forward to `call_next` and return its result.  The hook is embedded as
a function of the transport-level token, the optional request context,
and the next pipeline stage; it returns the updated context together
with the pipeline's response. -/
def on_call_tool {α : Type} (token : Option AccessToken)
    (fctx : Option RequestContext) (next : Option RequestContext → α) :
    Option RequestContext × α :=
  let user_id := getUserId token
  let fctx' :=
    match fctx with
    | some c => some (set_state c "user_id" user_id)
    | none => none
  (fctx', next fctx')

/-- `UserAuthMiddleware.on_read_resource`: textually the same body as
`on_call_tool` in the source, embedded separately so the two hooks can
be compared. -/
def on_read_resource {α : Type} (token : Option AccessToken)
    (fctx : Option RequestContext) (next : Option RequestContext → α) :
    Option RequestContext × α :=
  let user_id := getUserId token
  let fctx' :=
    match fctx with
    | some c => some (set_state c "user_id" user_id)
    | none => none
  (fctx', next fctx')

@[simp] theorem get_state_set_state_same (ctx : RequestContext)
    (k : String) (v : Option String) :
    get_state (set_state ctx k v) k = some v := by
  induction ctx with
  | nil => simp [set_state, get_state]
  | cons hd tl ih =>
      obtain ⟨k', v'⟩ := hd
      by_cases h : k' = k <;> simp [set_state, get_state, h, ih]

theorem get_state_set_state_other (ctx : RequestContext)
    (k k' : String) (v : Option String) (hne : k' ≠ k) :
    get_state (set_state ctx k v) k' = get_state ctx k' := by
  induction ctx with
  | nil => simp [set_state, get_state, Ne.symm hne]
  | cons hd tl ih =>
      obtain ⟨k₀, v₀⟩ := hd
      by_cases h : k₀ = k
      · subst h
        simp [set_state, get_state, Ne.symm hne]
      · simp [set_state, get_state, h, ih]

/-! ### HTTP surface: JSON responses, health and discovery endpoints -/

/-- JSON values appearing in the custom routes' response bodies:
strings and arrays of strings. -/
inductive JsonVal where
  | str (s : String)
  | arrStr (xs : List String)
deriving Repr, DecidableEq

/-- A `starlette` `JSONResponse`: a JSON object body (ordered field
list, as Python dict literals preserve insertion order) and an HTTP
status code, `200` unless specified. -/
structure JSONResponse where
  content : List (String × JsonVal)
  status_code : Nat
deriving Repr, DecidableEq

/-- The inbound HTTP request, opaque to the handlers under study (both
custom routes ignore it); modelled as its raw contents. -/
def Request : Type := String

/-- Deterministic serialization of a JSON value to bytes. -/
def renderVal : JsonVal → String
  | .str s => "\"" ++ s ++ "\""
  | .arrStr xs =>
      "[" ++ String.intercalate "," (xs.map (fun s => "\"" ++ s ++ "\"")) ++ "]"

/-- Deterministic serialization of a JSON object body to bytes. -/
def renderBody (fields : List (String × JsonVal)) : String :=
  "\x7b" ++
    String.intercalate ","
      (fields.map (fun p => "\"" ++ p.1 ++ "\":" ++ renderVal p.2)) ++
    "\x7d"

/-- `health_check`: the `/health` route.  Returns a constant payload
with the (default) 200 status, ignoring the request. -/
def health_check (_request : Request) : JSONResponse :=
  ⟨[("status", .str "healthy"), ("service", .str "mcp-server")], 200⟩

/-- `openid_configuration`: the `/.well-known/openid-configuration`
route, a pure function of the configured realm URL
(`KEYCLOAK_REALM_URL`), ignoring the request. -/
def openid_configuration (KEYCLOAK_REALM_URL : String)
    (_request : Request) : JSONResponse :=
  ⟨[("issuer", .str KEYCLOAK_REALM_URL),
    ("authorization_endpoint",
      .str (KEYCLOAK_REALM_URL ++ "/protocol/openid-connect/auth")),
    ("token_endpoint",
      .str (KEYCLOAK_REALM_URL ++ "/protocol/openid-connect/token")),
    ("userinfo_endpoint",
      .str (KEYCLOAK_REALM_URL ++ "/protocol/openid-connect/userinfo")),
    ("jwks_uri",
      .str (KEYCLOAK_REALM_URL ++ "/protocol/openid-connect/certs")),
    ("registration_endpoint",
      .str (KEYCLOAK_REALM_URL ++ "/clients-registrations/openid-connect")),
    ("scopes_supported", .arrStr ["openid", "profile", "email", "mcp:access"]),
    ("response_types_supported", .arrStr ["code"]),
    ("grant_types_supported", .arrStr ["authorization_code", "refresh_token"]),
    ("token_endpoint_auth_methods_supported",
      .arrStr ["client_secret_basic", "client_secret_post"]),
    ("code_challenge_methods_supported", .arrStr ["S256"])], 200⟩

/-! ### The `add_numbers` tool and its timestamp

Python floats on the operands are modelled as rationals; the additions
the properties mention (small integers) are exact in both models.
`datetime.datetime.now()` is modelled by passing the current wall-clock
time as an explicit argument. -/

/-- A Python `datetime.datetime` value (the fields `isoformat`
reads). -/
structure DateTime where
  year : Nat
  month : Nat
  day : Nat
  hour : Nat
  minute : Nat
  second : Nat
  microsecond : Nat
deriving Repr, DecidableEq

/-- The field ranges Python's `datetime` constructor enforces
(`MINYEAR = 1`, `MAXYEAR = 9999`). -/
def ValidDateTime (t : DateTime) : Prop :=
  1 ≤ t.year ∧ t.year ≤ 9999 ∧ 1 ≤ t.month ∧ t.month ≤ 12 ∧
  1 ≤ t.day ∧ t.day ≤ 31 ∧ t.hour ≤ 23 ∧ t.minute ≤ 59 ∧
  t.second ≤ 59 ∧ t.microsecond ≤ 999999

instance (t : DateTime) : Decidable (ValidDateTime t) := by
  unfold ValidDateTime; infer_instance

/-- Python `%02d` formatting for values below 100: two decimal
digits. -/
def pad2 (n : Nat) : String :=
  ⟨[Nat.digitChar (n / 10 % 10), Nat.digitChar (n % 10)]⟩

/-- Python `%04d` formatting for values below 10000: four decimal
digits. -/
def pad4 (n : Nat) : String :=
  ⟨[Nat.digitChar (n / 1000 % 10), Nat.digitChar (n / 100 % 10),
    Nat.digitChar (n / 10 % 10), Nat.digitChar (n % 10)]⟩

/-- Python `%06d` formatting for values below 1000000: six decimal
digits. -/
def pad6 (n : Nat) : String :=
  ⟨[Nat.digitChar (n / 100000 % 10), Nat.digitChar (n / 10000 % 10),
    Nat.digitChar (n / 1000 % 10), Nat.digitChar (n / 100 % 10),
    Nat.digitChar (n / 10 % 10), Nat.digitChar (n % 10)]⟩

/-- Python `datetime.isoformat()`:
`YYYY-MM-DDTHH:MM:SS[.ffffff]`, the microseconds part omitted when it
is zero. -/
def isoformat (t : DateTime) : String :=
  pad4 t.year ++ "-" ++ pad2 t.month ++ "-" ++ pad2 t.day ++ "T" ++
  pad2 t.hour ++ ":" ++ pad2 t.minute ++ ":" ++ pad2 t.second ++
  (if t.microsecond = 0 then "" else "." ++ pad6 t.microsecond)

/-- Well-formedness check for an ISO-8601 combined date-time string in
the two shapes `datetime.isoformat()` can emit: exactly
`dddd-dd-ddTdd:dd:dd` or `dddd-dd-ddTdd:dd:dd.dddddd`. -/
def isISO8601 (s : String) : Bool :=
  match s.data with
  | [y1, y2, y3, y4, a, mo1, mo2, b, d1, d2, c, h1, h2, e, mi1, mi2, f,
     s1, s2] =>
      y1.isDigit && y2.isDigit && y3.isDigit && y4.isDigit && a == '-' &&
      mo1.isDigit && mo2.isDigit && b == '-' && d1.isDigit && d2.isDigit &&
      c == 'T' && h1.isDigit && h2.isDigit && e == ':' && mi1.isDigit &&
      mi2.isDigit && f == ':' && s1.isDigit && s2.isDigit
  | [y1, y2, y3, y4, a, mo1, mo2, b, d1, d2, c, h1, h2, e, mi1, mi2, f,
     s1, s2, g, u1, u2, u3, u4, u5, u6] =>
      y1.isDigit && y2.isDigit && y3.isDigit && y4.isDigit && a == '-' &&
      mo1.isDigit && mo2.isDigit && b == '-' && d1.isDigit && d2.isDigit &&
      c == 'T' && h1.isDigit && h2.isDigit && e == ':' && mi1.isDigit &&
      mi2.isDigit && f == ':' && s1.isDigit && s2.isDigit && g == '.' &&
      u1.isDigit && u2.isDigit && u3.isDigit && u4.isDigit && u5.isDigit &&
      u6.isDigit
  | _ => false

/-- The result dictionary of the `add_numbers` tool. -/
structure AddNumbersResult where
  operation : String
  operand_a : ℚ
  operand_b : ℚ
  result : ℚ
  timestamp : String
deriving Repr, DecidableEq

/-- The `add_numbers` tool: adds its operands and wraps the result
with a `datetime.datetime.now().isoformat()` timestamp, passed here as
the explicit argument `now`. -/
def add_numbers (a b : ℚ) (now : DateTime) : AddNumbersResult :=
  let result := a + b
  { operation := "addition"
    operand_a := a
    operand_b := b
    result := result
    timestamp := isoformat now }

/-! ### Concurrency model for request isolation

Two in-flight requests, each owning its own `RequestContext` (the
FastMCP framework allocates one per request and never shares it).  The
middleware's only state action is its `set_state` write to its own
request's context; an interleaving of the two requests is an order in
which the two writes happen. -/

/-- The middleware's write step for one of two concurrent requests:
it writes `user_id` into that request's own context component and
leaves the other request's context untouched. -/
def middleware_write (firstCtx : Bool) (token : Option AccessToken)
    (w : RequestContext × RequestContext) :
    RequestContext × RequestContext :=
  if firstCtx then (set_state w.1 "user_id" (getUserId token), w.2)
  else (w.1, set_state w.2 "user_id" (getUserId token))

/-- Run the middleware of two concurrent requests (tokens `t1`, `t2`)
over the pair of their contexts, in either interleaving order. -/
def run_two (t1 t2 : Option AccessToken)
    (w : RequestContext × RequestContext) (firstRunsFirst : Bool) :
    RequestContext × RequestContext :=
  if firstRunsFirst then middleware_write false t2 (middleware_write true t1 w)
  else middleware_write true t1 (middleware_write false t2 w)

/-! ### Helper lemmas -/

theorem digitChar_isDigit_of_lt : ∀ k, k < 10 →
    (Nat.digitChar k).isDigit = true := by decide

theorem digitChar_mod_isDigit (x : Nat) :
    (Nat.digitChar (x % 10)).isDigit = true :=
  digitChar_isDigit_of_lt _ (Nat.mod_lt x (by decide))

theorem isISO8601_isoformat (t : DateTime) :
    isISO8601 (isoformat t) = true := by
  by_cases h : t.microsecond = 0 <;>
    simp [isoformat, h, pad4, pad2, pad6, isISO8601, String.data_append,
      digitChar_mod_isDigit,
      show ("-" : String).data = ['-'] from rfl,
      show ("T" : String).data = ['T'] from rfl,
      show (":" : String).data = [':'] from rfl,
      show ("." : String).data = ['.'] from rfl,
      show ("" : String).data = [] from rfl]

/-! ### Claim theorems -/

/-- C1: for every intercepted call carrying a token whose claims map
has `sub = v`, after the middleware runs the request-scoped context
holds `v` under the key `user_id`, and the handler (`call_next`) runs
on that updated context. -/
theorem middleware_stores_sub_claim {α : Type} (tk : AccessToken)
    (cs : List (String × String)) (v : String) (c : RequestContext)
    (next : Option RequestContext → α)
    (hc : tk.claims = some cs) (hs : cs.lookup "sub" = some v) :
    ∃ c', (on_call_tool (some tk) (some c) next).1 = some c' ∧
      get_state c' "user_id" = some (some v) ∧
      (on_call_tool (some tk) (some c) next).2 = next (some c') := by
  refine ⟨set_state c "user_id" (some v), ?_, ?_, ?_⟩ <;>
    simp [on_call_tool, getUserId, hc, hs]

theorem middleware_stores_sub_claim_witness :
    ∃ c', (on_call_tool (α := Option RequestContext)
        (some ⟨some [("sub", "u1")]⟩) (some []) id).1 = some c' ∧
      get_state c' "user_id" = some (some "u1") ∧
      (on_call_tool (α := Option RequestContext)
        (some ⟨some [("sub", "u1")]⟩) (some []) id).2 = id (some c') :=
  middleware_stores_sub_claim ⟨some [("sub", "u1")]⟩ [("sub", "u1")] "u1" []
    id rfl rfl

/-- C2: for every intercepted call with no token, a token lacking a
claims structure, or claims lacking `sub`, the middleware stores
`None` under `user_id` and the call still proceeds to the next
pipeline stage (the embedding is a total function: no exception is
raised). -/
theorem middleware_absent_identity {α : Type} (token : Option AccessToken)
    (c : RequestContext) (next : Option RequestContext → α)
    (h : token = none ∨ (∃ tk, token = some tk ∧ tk.claims = none) ∨
      (∃ tk cs, token = some tk ∧ tk.claims = some cs ∧
        cs.lookup "sub" = none)) :
    ∃ c', (on_call_tool token (some c) next).1 = some c' ∧
      get_state c' "user_id" = some none ∧
      (on_call_tool token (some c) next).2 = next (some c') := by
  have hid : getUserId token = none := by
    rcases h with rfl | ⟨tk, rfl, hc⟩ | ⟨tk, cs, rfl, hc, hs⟩
    · rfl
    · simp [getUserId, hc]
    · simp [getUserId, hc, hs]
  exact ⟨set_state c "user_id" none, by simp [on_call_tool, hid],
    get_state_set_state_same c "user_id" none, by simp [on_call_tool, hid]⟩

theorem middleware_absent_identity_witness :
    ∃ c', (on_call_tool (α := Nat) none (some []) (fun _ => 0)).1 = some c' ∧
      get_state c' "user_id" = some none ∧
      (on_call_tool (α := Nat) none (some []) (fun _ => 0)).2 =
        (fun _ : Option RequestContext => 0) (some c') :=
  middleware_absent_identity none [] (fun _ => 0) (Or.inl rfl)

/-- C3: per intercepted call the middleware writes exactly once to the
`RequestContext`, at key `user_id`; every other key is unchanged, and
when the call has no `fastmcp_context`, nothing is written at all. -/
theorem middleware_single_write {α : Type} (token : Option AccessToken)
    (c : RequestContext) (next : Option RequestContext → α) :
    (on_call_tool token (some c) next).1 =
      some (set_state c "user_id" (getUserId token)) ∧
    get_state (set_state c "user_id" (getUserId token)) "user_id" =
      some (getUserId token) ∧
    (∀ k, k ≠ "user_id" →
      get_state (set_state c "user_id" (getUserId token)) k =
        get_state c k) ∧
    (on_call_tool token none next).1 = none :=
  ⟨rfl, get_state_set_state_same c "user_id" (getUserId token),
    fun k hk => get_state_set_state_other c "user_id" k (getUserId token) hk,
    rfl⟩

theorem middleware_single_write_witness :
    (on_call_tool (α := Nat) (some ⟨some [("sub", "u1")]⟩)
        (some [("other", some "x")]) (fun _ => 0)).1 =
      some (set_state [("other", some "x")] "user_id"
        (getUserId (some ⟨some [("sub", "u1")]⟩))) ∧
    get_state (set_state [("other", some "x")] "user_id"
        (getUserId (some ⟨some [("sub", "u1")]⟩))) "other" =
      get_state [("other", some "x")] "other" :=
  have h := middleware_single_write (α := Nat) (some ⟨some [("sub", "u1")]⟩)
    [("other", some "x")] (fun _ => 0)
  ⟨h.1, h.2.2.1 "other" (by decide)⟩

/-- C4: both middleware hooks unconditionally forward the call to the
next pipeline stage and return exactly that stage's result, for every
token state and context: no short-circuit, no rejection, no response
mutation. -/
theorem middleware_forwards_unchanged {α : Type} (token : Option AccessToken)
    (fctx : Option RequestContext) (next : Option RequestContext → α) :
    (on_call_tool token fctx next).2 =
      next (on_call_tool token fctx next).1 ∧
    (on_read_resource token fctx next).2 =
      next (on_read_resource token fctx next).1 :=
  ⟨rfl, rfl⟩

/-- C5: for a fixed realm URL `R`, the discovery document binds the
issuer, authorization, token, userinfo, JWKS and registration
endpoints to the stated `R`-derived URLs, and carries the fixed
capability lists. -/
theorem openid_configuration_contents (R : String) (req : Request) :
    (openid_configuration R req).content.lookup "issuer" =
      some (.str R) ∧
    (openid_configuration R req).content.lookup "authorization_endpoint" =
      some (.str (R ++ "/protocol/openid-connect/auth")) ∧
    (openid_configuration R req).content.lookup "token_endpoint" =
      some (.str (R ++ "/protocol/openid-connect/token")) ∧
    (openid_configuration R req).content.lookup "userinfo_endpoint" =
      some (.str (R ++ "/protocol/openid-connect/userinfo")) ∧
    (openid_configuration R req).content.lookup "jwks_uri" =
      some (.str (R ++ "/protocol/openid-connect/certs")) ∧
    (openid_configuration R req).content.lookup "registration_endpoint" =
      some (.str (R ++ "/clients-registrations/openid-connect")) ∧
    (openid_configuration R req).content.lookup "scopes_supported" =
      some (.arrStr ["openid", "profile", "email", "mcp:access"]) ∧
    (openid_configuration R req).content.lookup "response_types_supported" =
      some (.arrStr ["code"]) ∧
    (openid_configuration R req).content.lookup "grant_types_supported" =
      some (.arrStr ["authorization_code", "refresh_token"]) ∧
    (openid_configuration R req).content.lookup
        "token_endpoint_auth_methods_supported" =
      some (.arrStr ["client_secret_basic", "client_secret_post"]) ∧
    (openid_configuration R req).content.lookup
        "code_challenge_methods_supported" =
      some (.arrStr ["S256"]) :=
  ⟨rfl, rfl, rfl, rfl, rfl, rfl, rfl, rfl, rfl, rfl, rfl⟩

/-- C6: the discovery endpoint is a pure function of the configured
realm URL: any two invocations with the same realm URL produce equal
responses, and their serializations are byte-identical. -/
theorem openid_configuration_deterministic (R : String)
    (req req' : Request) :
    openid_configuration R req = openid_configuration R req' ∧
    renderBody (openid_configuration R req).content =
      renderBody (openid_configuration R req').content :=
  ⟨rfl, rfl⟩

/-- C7: every request to `/health` gets status 200 with exactly the
payload `status: healthy, service: mcp-server`; the response does not
depend on the request (and the handler consults nothing besides it, in
particular no identity-provider state). -/
theorem health_check_spec (req req' : Request) :
    (health_check req).status_code = 200 ∧
    (health_check req).content =
      [("status", .str "healthy"), ("service", .str "mcp-server")] ∧
    health_check req = health_check req' :=
  ⟨rfl, rfl, rfl⟩

/-- C8: `add_numbers a b` reports operation `"addition"`, echoes both
operands, returns `a + b` as the result, and stamps a well-formed
ISO-8601 timestamp (for any valid wall-clock datetime). -/
theorem add_numbers_spec (a b : ℚ) (now : DateTime)
    (h : ValidDateTime now) :
    (add_numbers a b now).operation = "addition" ∧
    (add_numbers a b now).operand_a = a ∧
    (add_numbers a b now).operand_b = b ∧
    (add_numbers a b now).result = a + b ∧
    isISO8601 (add_numbers a b now).timestamp = true :=
  ⟨rfl, rfl, rfl, rfl, isISO8601_isoformat now⟩

theorem add_numbers_spec_witness :
    ValidDateTime ⟨2026, 10, 12, 13, 45, 30, 0⟩ ∧
    (add_numbers 2 3 ⟨2026, 10, 12, 13, 45, 30, 0⟩).result = 5 ∧
    isISO8601 (add_numbers 2 3 ⟨2026, 10, 12, 13, 45, 30, 0⟩).timestamp =
      true := by
  have h := add_numbers_spec 2 3 ⟨2026, 10, 12, 13, 45, 30, 0⟩ (by decide)
  refine ⟨by decide, ?_, h.2.2.2.2⟩
  rw [h.2.2.2.1]; norm_num

/-- C9: two concurrent requests with different resolved subjects, each
owning its own context, never observe each other's `user_id`: in both
interleaving orders of the two middleware writes, each context ends
holding its own request's subject and not the other's. -/
theorem request_isolation (t1 t2 : Option AccessToken)
    (w : RequestContext × RequestContext) (order : Bool) (v1 v2 : String)
    (h1 : getUserId t1 = some v1) (h2 : getUserId t2 = some v2)
    (hne : v1 ≠ v2) :
    get_state (run_two t1 t2 w order).1 "user_id" = some (some v1) ∧
    get_state (run_two t1 t2 w order).2 "user_id" = some (some v2) ∧
    get_state (run_two t1 t2 w order).1 "user_id" ≠ some (some v2) ∧
    get_state (run_two t1 t2 w order).2 "user_id" ≠ some (some v1) := by
  cases order <;>
    simp [run_two, middleware_write, h1, h2, hne, Ne.symm hne]

theorem request_isolation_witness :
    get_state (run_two (some ⟨some [("sub", "u1")]⟩)
      (some ⟨some [("sub", "u2")]⟩) ([], []) true).1 "user_id" =
        some (some "u1") ∧
    get_state (run_two (some ⟨some [("sub", "u1")]⟩)
      (some ⟨some [("sub", "u2")]⟩) ([], []) true).2 "user_id" =
        some (some "u2") ∧
    get_state (run_two (some ⟨some [("sub", "u1")]⟩)
      (some ⟨some [("sub", "u2")]⟩) ([], []) true).1 "user_id" ≠
        some (some "u2") ∧
    get_state (run_two (some ⟨some [("sub", "u1")]⟩)
      (some ⟨some [("sub", "u2")]⟩) ([], []) true).2 "user_id" ≠
        some (some "u1") :=
  request_isolation (some ⟨some [("sub", "u1")]⟩)
    (some ⟨some [("sub", "u2")]⟩) ([], []) true "u1" "u2" rfl rfl
    (by decide)

/-- C10: the tool-invocation hook and the resource-read hook are
behaviorally identical: on every token state, context and continuation
they produce the same updated context and the same response. -/
theorem hooks_behaviorally_identical {α : Type} (token : Option AccessToken)
    (fctx : Option RequestContext) (next : Option RequestContext → α) :
    on_call_tool token fctx next = on_read_resource token fctx next :=
  rfl

end McpAuth
